import Mathlib

/-
Shallow embedding of the users-api repository (p-k-001/users-api).

The repository contains two Express route modules:
  * src/unnamed/part_000 — the owner-scoped variant (every data operation is
    constrained by the caller's token id); embedded below in namespace `Scoped`.
  * src/api/index.js — the unscoped variant (no owner filtering, and the GET
    routes carry no authentication middleware); embedded in namespace `Api`.

External collaborators (bcrypt, jsonwebtoken, express-validator's isEmail) are
modelled as function parameters collected in `Ctx`.  The Prisma-backed database
is modelled as an explicit `Store` value threaded through every handler; each
handler is a pure function `... → Store → Resp × Store`.
-/

namespace UsersApi

/-- Identity decoded from a verified JWT payload: `{ id, email }`
(the payload signed in POST /login). -/
structure Identity where
  id : Int
  email : String
  deriving Repr, DecidableEq

/-- A row of the `User` table (the business resource record):
id, name, email, age, role, derived `adult`, and the owning account's id
(column `ownerId`, added by migration 20250710202250_add_auth_user). -/
structure User where
  id : Int
  name : String
  email : String
  age : Int
  role : String
  adult : Bool
  ownerId : Int
  deriving Repr, DecidableEq

/-- A row of the `AuthUser` table: id, unique email, bcrypt password hash. -/
structure AuthUser where
  id : Int
  email : String
  passwordHash : String
  deriving Repr, DecidableEq

/-- The database state: both tables, plus the next SERIAL ids. -/
structure Store where
  users : List User
  auths : List AuthUser
  nextUserId : Int
  nextAuthId : Int
  deriving Repr, DecidableEq

/-- JSON response bodies produced by the handlers. -/
inductive Body where
  | empty
  | msg (message : String)
  | errObj (message code : String)
  | errMsg (message : String)
  | valErrors (msgs : List String)
  | user (u : User)
  | users (us : List User)
  | deletedCount (n : Nat)
  | token (t : String)
  | registered (message email : String)
  deriving Repr, DecidableEq

/-- An HTTP response: status code and JSON body. -/
structure Resp where
  status : Nat
  body : Body
  deriving Repr, DecidableEq

/-- External collaborators, passed to the handlers:
`verify` models jwt.verify against the server secret (None on bad
signature/expiry), `emailOk` models express-validator's isEmail,
`hash` models bcrypt.hash, `cmp` models bcrypt.compare, and
`sign` models jwt.sign (first argument: the expiresIn option). -/
structure Ctx where
  verify : String → Option Identity
  emailOk : String → Bool
  hash : String → String
  cmp : String → String → Bool
  sign : String → Identity → String

/-- Helper from the source: `const isAdult = (age) => age >= 18`. -/
def isAdult (age : Int) : Bool := age ≥ 18

/-- Numeric value of a list of decimal digits. -/
def digitsToNat (cs : List Char) : Nat :=
  cs.foldl (fun n c => n * 10 + (c.toNat - 48)) 0

/-- JS `parseInt(s, 10)` as used by the handlers: skip leading whitespace,
read an optional sign, then the maximal run of decimal digits; NaN (here
`none`) when no digit follows.  Note `parseInt("3.5", 10) = 3`. -/
def parseIntJS (s : String) : Option Int :=
  let cs := s.data.dropWhile (fun c => c = ' ' ∨ c = '\t' ∨ c = '\n' ∨ c = '\r')
  match cs with
  | '-' :: rest =>
    let ds := rest.takeWhile Char.isDigit
    if ds.isEmpty then none else some (-(digitsToNat ds : Int))
  | '+' :: rest =>
    let ds := rest.takeWhile Char.isDigit
    if ds.isEmpty then none else some (digitsToNat ds : Int)
  | _ =>
    let ds := cs.takeWhile Char.isDigit
    if ds.isEmpty then none else some (digitsToNat ds : Int)

/-- JS `String.prototype.split(" ")`: split on every single space,
keeping empty fields. -/
def splitSpacesAux : List Char → List Char → List String
  | [], acc => [String.mk acc.reverse]
  | ' ' :: rest, acc => String.mk acc.reverse :: splitSpacesAux rest []
  | c :: rest, acc => splitSpacesAux rest (c :: acc)

/-- JS `s.split(" ")`. -/
def splitSpaces (s : String) : List String := splitSpacesAux s.data []

/-- Token extraction from the middleware:
`const token = authHeader && authHeader.split(" ")[1]` followed by the
falsiness test `if (!token)`.  The empty string is falsy, and a missing
header or a header with no second space-separated field yields no token.
The scheme word before the space is never inspected. -/
def extractToken (authHeader : Option String) : Option String :=
  match authHeader with
  | none => none
  | some h =>
    match (splitSpaces h).get? 1 with
    | none => none
    | some t => if t = "" then none else some t

/-- The centralized Prisma error object: only its `code` field is inspected. -/
structure PrismaErr where
  code : Option String
  deriving Repr, DecidableEq

/-- `handlePrismaError` from src/unnamed/part_000: P2025 maps to 404
"<action> failed: record not found"; any other truthy code maps to 500
"<action> failed"; a falsy code maps to 400 "<action> failed". -/
def handlePrismaError (action : String) (err : PrismaErr) : Resp :=
  if err.code = some "P2025" then
    ⟨404, Body.msg (action ++ " failed: record not found")⟩
  else
    match err.code with
    | some c =>
      if c = "" then ⟨400, Body.msg (action ++ " failed")⟩
      else ⟨500, Body.msg (action ++ " failed")⟩
    | none => ⟨400, Body.msg (action ++ " failed")⟩

/-- Request body of POST /users.  The handler reads only name, email, age
and role; `adult`, `id` and `ownerId` model extra JSON fields a client may
send, which the handler never reads. -/
structure CreateBody where
  name : Option String
  email : Option String
  age : Option Int
  role : Option String
  adult : Option Bool
  id : Option Int
  ownerId : Option Int
  deriving Repr, DecidableEq

/-- Request body of PUT /users/:id (all fields optional); `adult` models an
extra JSON field the handler never reads. -/
structure UpdateBody where
  name : Option String
  email : Option String
  age : Option Int
  role : Option String
  adult : Option Bool
  deriving Repr, DecidableEq

/-- Validation-error messages of the POST /users chain (name isString
notEmpty; email notEmpty + isEmail; age isInt 0..125; role in
[admin, user]), in middleware order.  Identical in both modules. -/
def createErrors (emailOk : String → Bool) (b : CreateBody) : List String :=
  (match b.name with
    | some n => if n = "" then ["Name is required"] else []
    | none => ["Name is required"]) ++
  (match b.email with
    | some e =>
      (if e = "" then ["Email is required"] else []) ++
      (if emailOk e then [] else ["Valid email format is required"])
    | none => ["Email is required", "Valid email format is required"]) ++
  (match b.age with
    | some a => if 0 ≤ a ∧ a ≤ 125 then [] else ["Age must be between 0 and 125"]
    | none => ["Age must be between 0 and 125"]) ++
  (match b.role with
    | some r => if r = "admin" ∨ r = "user" then [] else ["Role must be admin or user"]
    | none => ["Role must be admin or user"])

/-- `updateData` construction shared by both PUT handlers: each supplied
field overwrites the stored one, and `adult` is recomputed exactly when
`age` is supplied; the body's own `adult` field is never read. -/
def applyUpdate (b : UpdateBody) (u : User) : User :=
  { u with
    name := b.name.getD u.name
    email := b.email.getD u.email
    age := b.age.getD u.age
    role := b.role.getD u.role
    adult := match b.age with
      | some a => isAdult a
      | none => u.adult }

/-- POST /register, textually identical in both route modules. -/
def register (hash : String → String) (email password : Option String)
    (s : Store) : Resp × Store :=
  match email, password with
  | some e, some p =>
    if e = "" ∨ p = "" then
      (⟨400, Body.msg "Email and password are required"⟩, s)
    else
      match s.auths.find? (fun a => a.email == e) with
      | some _ => (⟨400, Body.msg "Email already exists"⟩, s)
      | none =>
        (⟨201, Body.registered "User registered" e⟩,
         { s with auths := s.auths ++ [⟨s.nextAuthId, e, hash p⟩],
                  nextAuthId := s.nextAuthId + 1 })
  | _, _ => (⟨400, Body.msg "Email and password are required"⟩, s)

/-- POST /login, identical in both route modules except for the expiresIn
option passed to jwt.sign ("300000" in the scoped module, "1h" in the
unscoped one). -/
def login (c : Ctx) (expiresIn : String) (email password : Option String)
    (s : Store) : Resp × Store :=
  match email, password with
  | some e, some p =>
    if e = "" ∨ p = "" then
      (⟨400, Body.msg "Email and password are required"⟩, s)
    else
      match s.auths.find? (fun a => a.email == e) with
      | none => (⟨401, Body.msg "Invalid email or password"⟩, s)
      | some u =>
        if c.cmp p u.passwordHash then
          (⟨200, Body.token (c.sign expiresIn ⟨u.id, u.email⟩)⟩, s)
        else
          (⟨401, Body.msg "Invalid email or password"⟩, s)
  | _, _ => (⟨400, Body.msg "Email and password are required"⟩, s)

/-- GET /hello, identical in both modules. -/
def hello : Resp := ⟨200, Body.msg "Hello, API Testing!"⟩

namespace Scoped

/-- JWT middleware of the owner-scoped module: 401 NO_TOKEN when no token
could be extracted, 403 INVALID_TOKEN when verification fails, otherwise
the decoded identity. -/
def authenticateToken (verify : String → Option Identity)
    (hdr : Option String) : Except Resp Identity :=
  match extractToken hdr with
  | none => Except.error ⟨401, Body.errObj "No token provided" "NO_TOKEN"⟩
  | some t =>
    match verify t with
    | none =>
      Except.error
        ⟨403, Body.errObj "Invalid or expired token - log out and log in again"
          "INVALID_TOKEN"⟩
    | some u => Except.ok u

/-- GET /users: all records with `ownerId` equal to the caller's id. -/
def getUsers (c : Ctx) (hdr : Option String) (s : Store) : Resp × Store :=
  match authenticateToken c.verify hdr with
  | Except.error r => (r, s)
  | Except.ok ident =>
    (⟨200, Body.users (s.users.filter (fun u => u.ownerId == ident.id))⟩, s)

/-- GET /users/:id: parse the id, then findFirst on `{ id, ownerId }`. -/
def getUserById (c : Ctx) (hdr : Option String) (idParam : String)
    (s : Store) : Resp × Store :=
  match authenticateToken c.verify hdr with
  | Except.error r => (r, s)
  | Except.ok ident =>
    match parseIntJS idParam with
    | none => (⟨400, Body.msg "Invalid ID"⟩, s)
    | some i =>
      match s.users.find? (fun u => u.id == i && u.ownerId == ident.id) with
      | none => (⟨404, Body.msg "User not found"⟩, s)
      | some u => (⟨200, Body.user u⟩, s)

/-- POST /users: validate, then create a record whose owner is connected to
the caller's token id; only name, email, age and role are read from the
body (validation guarantees all four are present on the success path). -/
def createUser (c : Ctx) (hdr : Option String) (b : CreateBody)
    (s : Store) : Resp × Store :=
  match authenticateToken c.verify hdr with
  | Except.error r => (r, s)
  | Except.ok ident =>
    let errs := createErrors c.emailOk b
    match errs with
    | _ :: _ => (⟨400, Body.valErrors errs⟩, s)
    | [] =>
      let age := b.age.getD 0
      let newU : User :=
        ⟨s.nextUserId, b.name.getD "", b.email.getD "", age, b.role.getD "",
         isAdult age, ident.id⟩
      (⟨201, Body.user newU⟩,
       { s with users := s.users ++ [newU], nextUserId := s.nextUserId + 1 })

/-- Validation-error messages of the scoped PUT chain (plain `optional()`
on every field). -/
def updateErrors (emailOk : String → Bool) (b : UpdateBody) : List String :=
  (match b.name with
    | some n => if n = "" then ["Name is required"] else []
    | none => []) ++
  (match b.email with
    | some e =>
      (if e = "" then ["Email is required"] else []) ++
      (if emailOk e then [] else ["Valid email format is required"])
    | none => []) ++
  (match b.age with
    | some a => if 0 ≤ a ∧ a ≤ 125 then [] else ["Age must be between 0 and 125"]
    | none => []) ++
  (match b.role with
    | some r => if r = "admin" ∨ r = "user" then [] else ["Role must be admin or user"]
    | none => [])

/-- PUT /users/:id: parse the id, validate, check ownership with findFirst
on `{ id, ownerId }` (404 on miss), then update the row with that id.
The inner `none` branch is the unreachable P2025 path of prisma.update. -/
def updateUser (c : Ctx) (hdr : Option String) (idParam : String)
    (b : UpdateBody) (s : Store) : Resp × Store :=
  match authenticateToken c.verify hdr with
  | Except.error r => (r, s)
  | Except.ok ident =>
    match parseIntJS idParam with
    | none => (⟨400, Body.msg "Invalid ID"⟩, s)
    | some i =>
      let errs := updateErrors c.emailOk b
      match errs with
      | _ :: _ => (⟨400, Body.valErrors errs⟩, s)
      | [] =>
        match s.users.find? (fun u => u.id == i && u.ownerId == ident.id) with
        | none => (⟨404, Body.msg "User not found"⟩, s)
        | some _ =>
          match s.users.find? (fun u => u.id == i) with
          | none => (handlePrismaError "Update user" ⟨some "P2025"⟩, s)
          | some u0 =>
            (⟨200, Body.user (applyUpdate b u0)⟩,
             { s with users :=
                 s.users.map (fun u => if u.id == i then applyUpdate b u else u) })

/-- DELETE /users/:id: parse the id, check ownership with findFirst (404 on
miss), then delete the row with that id and answer 204 with empty body. -/
def deleteUser (c : Ctx) (hdr : Option String) (idParam : String)
    (s : Store) : Resp × Store :=
  match authenticateToken c.verify hdr with
  | Except.error r => (r, s)
  | Except.ok ident =>
    match parseIntJS idParam with
    | none => (⟨400, Body.msg "Invalid ID"⟩, s)
    | some i =>
      match s.users.find? (fun u => u.id == i && u.ownerId == ident.id) with
      | none => (⟨404, Body.msg "User not found"⟩, s)
      | some _ =>
        (⟨204, Body.empty⟩,
         { s with users := s.users.filter (fun u => !(u.id == i)) })

/-- DELETE /users: deleteMany on `{ ownerId }`, answering 200 with the
deleted count. -/
def deleteAllUsers (c : Ctx) (hdr : Option String) (s : Store) :
    Resp × Store :=
  match authenticateToken c.verify hdr with
  | Except.error r => (r, s)
  | Except.ok ident =>
    (⟨200, Body.deletedCount
        (s.users.filter (fun u => u.ownerId == ident.id)).length⟩,
     { s with users := s.users.filter (fun u => !(u.ownerId == ident.id)) })

end Scoped

/-- The routes of the owner-scoped module. -/
inductive Route where
  | hello
  | getUsers
  | getUser (idParam : String)
  | createUser (b : CreateBody)
  | updateUser (idParam : String) (b : UpdateBody)
  | deleteUser (idParam : String)
  | deleteUsers
  | register (email password : Option String)
  | login (email password : Option String)
  deriving Repr, DecidableEq

/-- Whether the route carries the authenticateToken middleware in the
owner-scoped module (everything except /hello, /register, /login). -/
def Route.isProtected : Route → Bool
  | Route.hello => false
  | Route.register _ _ => false
  | Route.login _ _ => false
  | _ => true

/-- Dispatcher of the owner-scoped module. -/
def Scoped.handle (c : Ctx) (hdr : Option String) (r : Route) (s : Store) :
    Resp × Store :=
  match r with
  | Route.hello => (hello, s)
  | Route.getUsers => Scoped.getUsers c hdr s
  | Route.getUser p => Scoped.getUserById c hdr p s
  | Route.createUser b => Scoped.createUser c hdr b s
  | Route.updateUser p b => Scoped.updateUser c hdr p b s
  | Route.deleteUser p => Scoped.deleteUser c hdr p s
  | Route.deleteUsers => Scoped.deleteAllUsers c hdr s
  | Route.register e p => register c.hash e p s
  | Route.login e p => login c "300000" e p s

namespace Api

/-- JWT middleware of the unscoped module (different error bodies). -/
def authenticateToken (verify : String → Option Identity)
    (hdr : Option String) : Except Resp Identity :=
  match extractToken hdr with
  | none => Except.error ⟨401, Body.msg "No token provided"⟩
  | some t =>
    match verify t with
    | none => Except.error ⟨403, Body.errMsg "Invalid token"⟩
    | some u => Except.ok u

/-- GET /users of the unscoped module: no middleware, findMany with no
filter. -/
def getUsers (s : Store) : Resp × Store := (⟨200, Body.users s.users⟩, s)

/-- GET /users/:id of the unscoped module: no middleware, findUnique on
`{ id }`. -/
def getUserById (idParam : String) (s : Store) : Resp × Store :=
  match parseIntJS idParam with
  | none => (⟨400, Body.msg "Invalid ID"⟩, s)
  | some i =>
    match s.users.find? (fun u => u.id == i) with
    | none => (⟨404, Body.msg "User not found"⟩, s)
    | some u => (⟨200, Body.user u⟩, s)

/-- Validation-error messages of the unscoped PUT chain: name, email and
role use `optional({ checkFalsy: true })`, so an empty string skips their
checks; age uses `optional({ nullable: true })`. -/
def updateErrors (emailOk : String → Bool) (b : UpdateBody) : List String :=
  (match b.email with
    | some e =>
      if e = "" then []
      else if emailOk e then [] else ["Valid email format is required"]
    | none => []) ++
  (match b.age with
    | some a => if 0 ≤ a ∧ a ≤ 125 then [] else ["Age must be between 0 and 125"]
    | none => []) ++
  (match b.role with
    | some r =>
      if r = "" ∨ r = "admin" ∨ r = "user" then []
      else ["Role must be admin or user"]
    | none => [])

/-- PUT /users/:id of the unscoped module: authenticated but with no
ownership check; prisma.update on `{ id }`, P2025 mapped to 404
"User not found". -/
def updateUser (c : Ctx) (hdr : Option String) (idParam : String)
    (b : UpdateBody) (s : Store) : Resp × Store :=
  match Api.authenticateToken c.verify hdr with
  | Except.error r => (r, s)
  | Except.ok _ =>
    match parseIntJS idParam with
    | none => (⟨400, Body.msg "Invalid ID"⟩, s)
    | some i =>
      let errs := Api.updateErrors c.emailOk b
      match errs with
      | _ :: _ => (⟨400, Body.valErrors errs⟩, s)
      | [] =>
        match s.users.find? (fun u => u.id == i) with
        | none => (⟨404, Body.msg "User not found"⟩, s)
        | some u0 =>
          (⟨200, Body.user (applyUpdate b u0)⟩,
           { s with users :=
               s.users.map (fun u => if u.id == i then applyUpdate b u else u) })

/-- DELETE /users/:id of the unscoped module: authenticated, no ownership
check; prisma.delete on `{ id }`, P2025 mapped to 404 "User not found". -/
def deleteUser (c : Ctx) (hdr : Option String) (idParam : String)
    (s : Store) : Resp × Store :=
  match Api.authenticateToken c.verify hdr with
  | Except.error r => (r, s)
  | Except.ok _ =>
    match parseIntJS idParam with
    | none => (⟨400, Body.msg "Invalid ID"⟩, s)
    | some i =>
      match s.users.find? (fun u => u.id == i) with
      | none => (⟨404, Body.msg "User not found"⟩, s)
      | some _ =>
        (⟨204, Body.empty⟩,
         { s with users := s.users.filter (fun u => !(u.id == i)) })

/-- DELETE /users of the unscoped module: deleteMany with no filter,
204 with empty body. -/
def deleteAllUsers (c : Ctx) (hdr : Option String) (s : Store) :
    Resp × Store :=
  match Api.authenticateToken c.verify hdr with
  | Except.error r => (r, s)
  | Except.ok _ => (⟨204, Body.empty⟩, { s with users := [] })

end Api

/-- Body equivalence used to compare the two modules' login responses:
two token bodies are equivalent whatever the token strings (they differ
only through the jwt.sign expiry option); any other bodies must be equal. -/
def Body.equivTok (b1 b2 : Body) : Bool :=
  match b1, b2 with
  | Body.token _, Body.token _ => true
  | x, y => x == y

/-- The store with every record of a given id removed: the "no record with
that id exists" counterfactual used by claim C1. -/
def dropRecord (i : Int) (s : Store) : Store :=
  { s with users := s.users.filter (fun u => !(u.id == i)) }

/-- Well-formedness inherited from the database schema: primary keys of the
`User` table are unique. -/
def Store.wf (s : Store) : Prop := (s.users.map (fun u => u.id)).Nodup

instance (s : Store) : Decidable s.wf := by
  unfold Store.wf
  infer_instance

/-- Concrete collaborators used by the witness instances: exactly one valid
token string "tokA" resolving to account 1. -/
def cW : Ctx :=
  ⟨fun t => if t = "tokA" then some ⟨1, "a@x.com"⟩ else none,
   fun e => e ≠ "",
   fun p => p ++ "#h",
   fun p h => h == p ++ "#h",
   fun expIn i => i.email ++ ":" ++ expIn⟩

/-- The identity account 1's token decodes to. -/
def identW : Identity := ⟨1, "a@x.com"⟩

/-- A well-formed bearer header for the witness token. -/
def hdrW : Option String := some "Bearer tokA"

/-- The empty store. -/
def store0 : Store := ⟨[], [], 1, 1⟩

/-- A store whose single record belongs to account 2, not to the witness
caller (account 1). -/
def storeB : Store :=
  ⟨[⟨7, "Bob", "b@x.com", 17, "user", false, 2⟩], [⟨1, "a@x.com", "pw#h"⟩], 8, 2⟩

/-- A store whose single record (id 3) belongs to the witness caller. -/
def storeC9 : Store :=
  ⟨[⟨3, "Ann", "ann@x.com", 20, "user", true, 1⟩], [⟨1, "a@x.com", "pw#h"⟩], 4, 2⟩

/-- A store with one registered account (email a@x.com, hash of "pw"). -/
def storeC5 : Store := ⟨[], [⟨1, "a@x.com", "pw#h"⟩], 1, 2⟩

/-- A store in which every record is owned by the witness caller. -/
def store8 : Store :=
  ⟨[⟨1, "Ann", "ann@x.com", 20, "user", true, 1⟩,
    ⟨2, "Kid", "kid@x.com", 9, "user", false, 1⟩],
   [⟨1, "a@x.com", "pw#h"⟩], 3, 2⟩

/-- An empty PUT body. -/
def ubEmpty : UpdateBody := ⟨none, none, none, none, none⟩

theorem find?_congr {α : Type} {p q : α → Bool} {l : List α}
    (h : ∀ x ∈ l, p x = q x) : l.find? p = l.find? q := by
  induction l with
  | nil => rfl
  | cons a t ih =>
    have ha : p a = q a := h a (by simp)
    by_cases hp : p a = true
    · rw [List.find?_cons_of_pos t hp, List.find?_cons_of_pos t (by rw [← ha]; exact hp)]
    · rw [List.find?_cons_of_neg t hp, List.find?_cons_of_neg t (by rw [← ha]; exact hp),
        ih (fun x hx => h x (by simp [hx]))]

theorem authOk_iff (v : String → Option Identity) (hdr : Option String)
    (i : Identity) :
    Scoped.authenticateToken v hdr = Except.ok i ↔
      ∃ t, extractToken hdr = some t ∧ v t = some i := by
  unfold Scoped.authenticateToken
  cases hx : extractToken hdr with
  | none => simp
  | some t =>
    cases hv : v t with
    | none => simp [hv]
    | some u => simp [hv]

theorem apiAuthOk (v : String → Option Identity) (hdr : Option String)
    (i : Identity) (h : Scoped.authenticateToken v hdr = Except.ok i) :
    Api.authenticateToken v hdr = Except.ok i := by
  obtain ⟨t, hx, hv⟩ := (authOk_iff v hdr i).mp h
  unfold Api.authenticateToken
  simp [hx, hv]

/-- C3: an authenticated GET /users returns 200 with exactly the records
whose ownerId equals the caller's token id (all of them and no other), and
the store is unchanged. -/
theorem c3_get_users_owner_filtered (c : Ctx) (hdr : Option String)
    (ident : Identity) (s : Store)
    (hauth : Scoped.authenticateToken c.verify hdr = Except.ok ident) :
    Scoped.getUsers c hdr s =
      (⟨200, Body.users (s.users.filter (fun u => u.ownerId == ident.id))⟩, s) ∧
    ∀ u : User, u ∈ s.users.filter (fun u => u.ownerId == ident.id) ↔
      (u ∈ s.users ∧ u.ownerId = ident.id) := by
  constructor
  · simp [Scoped.getUsers, hauth]
  · intro u
    simp [List.mem_filter]

/-- Witness for C3 at the concrete token, caller and store. -/
theorem c3_witness :
    Scoped.authenticateToken cW.verify hdrW = Except.ok identW ∧
    Scoped.getUsers cW hdrW store8 =
      (⟨200, Body.users (store8.users.filter (fun u => u.ownerId == identW.id))⟩,
       store8) := by
  have h : Scoped.authenticateToken cW.verify hdrW = Except.ok identW := by rfl
  exact ⟨h, (c3_get_users_owner_filtered cW hdrW identW store8 h).1⟩

/-- C4: an authenticated DELETE /users removes exactly the caller's records,
answers 200 with the count of the caller's records before deletion, and
every record of any other owner survives. -/
theorem c4_delete_all_frame (c : Ctx) (hdr : Option String)
    (ident : Identity) (s : Store)
    (hauth : Scoped.authenticateToken c.verify hdr = Except.ok ident) :
    Scoped.deleteAllUsers c hdr s =
      (⟨200, Body.deletedCount (s.users.countP (fun u => u.ownerId == ident.id))⟩,
       { s with users := s.users.filter (fun u => !(u.ownerId == ident.id)) }) ∧
    ∀ u : User, u ∈ (Scoped.deleteAllUsers c hdr s).2.users ↔
      (u ∈ s.users ∧ u.ownerId ≠ ident.id) := by
  constructor
  · simp [Scoped.deleteAllUsers, hauth, List.countP_eq_length_filter]
  · intro u
    simp [Scoped.deleteAllUsers, hauth, List.mem_filter]

/-- Witness for C4: account 1 deletes its two records; the count is 2. -/
theorem c4_witness :
    Scoped.authenticateToken cW.verify hdrW = Except.ok identW ∧
    Scoped.deleteAllUsers cW hdrW store8 =
      (⟨200, Body.deletedCount (store8.users.countP (fun u => u.ownerId == identW.id))⟩,
       { store8 with users := store8.users.filter (fun u => !(u.ownerId == identW.id)) }) := by
  have h : Scoped.authenticateToken cW.verify hdrW = Except.ok identW := by rfl
  exact ⟨h, (c4_delete_all_frame cW hdrW identW store8 h).1⟩

/-- C5: a login with an unknown email and a login with a known email but a
failing password verification produce the same 401 response with the same
body, so the two failure causes are indistinguishable. -/
theorem c5_login_indistinguishable (c : Ctx) (expIn : String) (s : Store)
    (e1 p1 e2 p2 : String) (u : AuthUser)
    (he1 : e1 ≠ "") (hp1 : p1 ≠ "") (he2 : e2 ≠ "") (hp2 : p2 ≠ "")
    (hf1 : s.auths.find? (fun a => a.email == e1) = none)
    (hf2 : s.auths.find? (fun a => a.email == e2) = some u)
    (hcmp : c.cmp p2 u.passwordHash = false) :
    login c expIn (some e1) (some p1) s =
      (⟨401, Body.msg "Invalid email or password"⟩, s) ∧
    login c expIn (some e2) (some p2) s =
      (⟨401, Body.msg "Invalid email or password"⟩, s) ∧
    (login c expIn (some e1) (some p1) s).1 =
      (login c expIn (some e2) (some p2) s).1 := by
  refine ⟨?_, ?_, ?_⟩ <;>
    simp [login, he1, hp1, he2, hp2, hf1, hf2, hcmp]

/-- Witness for C5: unknown email "nobody@x.com" versus wrong password for
the registered "a@x.com". -/
theorem c5_witness :
    storeC5.auths.find? (fun a => a.email == "nobody@x.com") = none ∧
    storeC5.auths.find? (fun a => a.email == "a@x.com") =
      some ⟨1, "a@x.com", "pw#h"⟩ ∧
    cW.cmp "wrong" "pw#h" = false ∧
    login cW "300000" (some "nobody@x.com") (some "pw") storeC5 =
      (⟨401, Body.msg "Invalid email or password"⟩, storeC5) ∧
    login cW "300000" (some "a@x.com") (some "wrong") storeC5 =
      (⟨401, Body.msg "Invalid email or password"⟩, storeC5) := by
  have h1 : storeC5.auths.find? (fun a => a.email == "nobody@x.com") = none := by decide
  have h2 : storeC5.auths.find? (fun a => a.email == "a@x.com") =
      some ⟨1, "a@x.com", "pw#h"⟩ := by decide
  have h3 : cW.cmp "wrong" "pw#h" = false := by decide
  have h := c5_login_indistinguishable cW "300000" storeC5
    "nobody@x.com" "pw" "a@x.com" "wrong" ⟨1, "a@x.com", "pw#h"⟩
    (by decide) (by decide) (by decide) (by decide) h1 h2 h3
  exact ⟨h1, h2, h3, h.1, h.2.1⟩

/-- C6: with an account already holding the email, a sequential register is
rejected with 400 "Email already exists" and creates nothing; but the
store-level unique-constraint error (Prisma P2002), raised when the
pre-check misses a race, is mapped by handlePrismaError to 500
"Registration failed", not to the 400 ConflictError the claim requires. -/
theorem c6_register_conflict (hash : String → String) (s : Store)
    (e p : String) (a : AuthUser)
    (he : e ≠ "") (hp : p ≠ "")
    (hf : s.auths.find? (fun x => x.email == e) = some a) :
    register hash (some e) (some p) s =
      (⟨400, Body.msg "Email already exists"⟩, s) ∧
    handlePrismaError "Registration" ⟨some "P2002"⟩ =
      ⟨500, Body.msg "Registration failed"⟩ := by
  constructor
  · simp [register, he, hp, hf]
  · rfl

/-- C1: for GET, PUT and DELETE on /users/:id, a record that exists but is
owned by a different account yields 404 "User not found" with the store
unchanged, exactly as when no record with that id exists at all (the
handlers' findFirst filters on both id and the caller's ownerId). -/
theorem c1_cross_owner_not_found (c : Ctx) (hdr : Option String)
    (ident : Identity) (s : Store) (i : Int) (p : String) (b : UpdateBody)
    (hauth : Scoped.authenticateToken c.verify hdr = Except.ok ident)
    (hwf : s.wf)
    (hp : parseIntJS p = some i)
    (hb : Scoped.updateErrors c.emailOk b = [])
    (hex : ∃ u ∈ s.users, u.id = i ∧ u.ownerId ≠ ident.id) :
    Scoped.getUserById c hdr p s = (⟨404, Body.msg "User not found"⟩, s) ∧
    Scoped.getUserById c hdr p (dropRecord i s) =
      (⟨404, Body.msg "User not found"⟩, dropRecord i s) ∧
    Scoped.updateUser c hdr p b s = (⟨404, Body.msg "User not found"⟩, s) ∧
    Scoped.updateUser c hdr p b (dropRecord i s) =
      (⟨404, Body.msg "User not found"⟩, dropRecord i s) ∧
    Scoped.deleteUser c hdr p s = (⟨404, Body.msg "User not found"⟩, s) ∧
    Scoped.deleteUser c hdr p (dropRecord i s) =
      (⟨404, Body.msg "User not found"⟩, dropRecord i s) := by
  have hfind : s.users.find? (fun u => u.id == i && u.ownerId == ident.id) = none := by
    rw [List.find?_eq_none]
    intro x hx hpx
    rw [Bool.and_eq_true, beq_iff_eq, beq_iff_eq] at hpx
    obtain ⟨u, hu, hui, huo⟩ := hex
    have hxe : x = u := List.inj_on_of_nodup_map hwf hx hu (by rw [hpx.1, hui])
    exact huo (by rw [← hxe]; exact hpx.2)
  have hdrop : (dropRecord i s).users.find?
      (fun u => u.id == i && u.ownerId == ident.id) = none := by
    rw [List.find?_eq_none]
    intro x hx hpx
    rw [Bool.and_eq_true, beq_iff_eq, beq_iff_eq] at hpx
    have hxm := List.mem_filter.mp hx
    rw [Bool.not_eq_true', beq_eq_false_iff_ne] at hxm
    exact hxm.2 hpx.1
  refine ⟨?_, ?_, ?_, ?_, ?_, ?_⟩ <;>
    simp [Scoped.getUserById, Scoped.updateUser, Scoped.deleteUser,
      hauth, hp, hb, hfind, hdrop]

/-- Witness for C1: caller 1 asks for record 7, which belongs to account 2. -/
theorem c1_witness :
    Scoped.authenticateToken cW.verify hdrW = Except.ok identW ∧
    storeB.wf ∧
    parseIntJS "7" = some 7 ∧
    Scoped.updateErrors cW.emailOk ubEmpty = [] ∧
    (∃ u ∈ storeB.users, u.id = 7 ∧ u.ownerId ≠ identW.id) ∧
    Scoped.getUserById cW hdrW "7" storeB =
      (⟨404, Body.msg "User not found"⟩, storeB) ∧
    Scoped.deleteUser cW hdrW "7" storeB =
      (⟨404, Body.msg "User not found"⟩, storeB) := by
  have h1 : Scoped.authenticateToken cW.verify hdrW = Except.ok identW := by rfl
  have h2 : storeB.wf := by decide
  have h3 : parseIntJS "7" = some 7 := by decide
  have h4 : Scoped.updateErrors cW.emailOk ubEmpty = [] := by decide
  have h5 : ∃ u ∈ storeB.users, u.id = 7 ∧ u.ownerId ≠ identW.id := by decide
  have h := c1_cross_owner_not_found cW hdrW identW storeB 7 "7" ubEmpty h1 h2 h3 h4 h5
  exact ⟨h1, h2, h3, h4, h5, h.1, h.2.2.2.2.1⟩

/-- C2 (amended): the middleware rejects with 401 NO_TOKEN when no token can
be extracted (header absent, or no second space-separated field, or that
field empty — the "Bearer" scheme word itself is never checked), and with
403 INVALID_TOKEN when an extracted token fails verification; both
rejections leave every store unchanged and are independent of the store, so
they happen before any store access. -/
theorem c2_auth_gate (c : Ctx) (hdr : Option String) (r : Route)
    (hprot : r.isProtected = true) :
    (extractToken hdr = none →
      ∀ s : Store, Scoped.handle c hdr r s =
        (⟨401, Body.errObj "No token provided" "NO_TOKEN"⟩, s)) ∧
    (∀ t, extractToken hdr = some t → c.verify t = none →
      ∀ s : Store, Scoped.handle c hdr r s =
        (⟨403, Body.errObj "Invalid or expired token - log out and log in again"
          "INVALID_TOKEN"⟩, s)) := by
  constructor
  · intro hx s
    cases r <;> simp_all [Scoped.handle, Route.isProtected, Scoped.getUsers,
      Scoped.getUserById, Scoped.createUser, Scoped.updateUser,
      Scoped.deleteUser, Scoped.deleteAllUsers, Scoped.authenticateToken]
  · intro t hx hv s
    cases r <;> simp_all [Scoped.handle, Route.isProtected, Scoped.getUsers,
      Scoped.getUserById, Scoped.createUser, Scoped.updateUser,
      Scoped.deleteUser, Scoped.deleteAllUsers, Scoped.authenticateToken]

/-- Witness for C2: the bare header "Bearer" has no second field, so a
protected GET /users/3 is answered 401 NO_TOKEN on the empty store. -/
theorem c2_witness :
    Route.isProtected (Route.getUser "3") = true ∧
    extractToken (some "Bearer") = none ∧
    Scoped.handle cW (some "Bearer") (Route.getUser "3") store0 =
      (⟨401, Body.errObj "No token provided" "NO_TOKEN"⟩, store0) := by
  refine ⟨by decide, by decide, ?_⟩
  exact (c2_auth_gate cW (some "Bearer") (Route.getUser "3") (by decide)).1
    (by decide) store0

/-- C2 counterexample: the header "Basic xyz" is not of the form
"Bearer <token>", yet the middleware extracts "xyz" as the token and the
request is rejected with 403 INVALID_TOKEN, not with the 401 NO_TOKEN the
claim requires for malformed headers. -/
theorem c2_counterexample :
    (Scoped.handle cW (some "Basic xyz") Route.getUsers store0).1.status = 403 ∧
    (Scoped.handle cW (some "Basic xyz") Route.getUsers store0).1 ≠
      (⟨401, Body.errObj "No token provided" "NO_TOKEN"⟩ : Resp) := by
  refine ⟨by rfl, ?_⟩
  intro h
  exact absurd (congrArg Resp.status h) (by decide)

/-- C7: the adult flag always equals (age ≥ 18): the create handler derives
it from the validated age; the update construction recomputes it exactly
when age is supplied and keeps it unchanged otherwise; neither handler reads
an adult field from the request body. -/
theorem c7_adult_invariant (c : Ctx) (hdr : Option String) (ident : Identity)
    (p : String) (b : CreateBody) (bu : UpdateBody) (u : User) (s : Store)
    (hauth : Scoped.authenticateToken c.verify hdr = Except.ok ident) :
    (∀ r : User, ∀ s2 : Store,
        Scoped.createUser c hdr b s = (⟨201, Body.user r⟩, s2) →
        r.adult = isAdult r.age) ∧
    (∀ a : Int, bu.age = some a →
        (applyUpdate bu u).adult = isAdult a ∧ (applyUpdate bu u).age = a) ∧
    (bu.age = none →
        (applyUpdate bu u).adult = u.adult ∧ (applyUpdate bu u).age = u.age) ∧
    (u.adult = isAdult u.age →
        (applyUpdate bu u).adult = isAdult (applyUpdate bu u).age) ∧
    (Scoped.createUser c hdr b s =
      Scoped.createUser c hdr { b with adult := none } s) ∧
    (Scoped.updateUser c hdr p bu s =
      Scoped.updateUser c hdr p { bu with adult := none } s) := by
  refine ⟨?_, ?_, ?_, ?_, ?_, ?_⟩
  · intro r s2 h
    cases herr : createErrors c.emailOk b with
    | cons m ms => simp [Scoped.createUser, hauth, herr] at h
    | nil =>
      simp [Scoped.createUser, hauth, herr] at h
      rw [← h.1]
  · intro a ha
    simp [applyUpdate, ha]
  · intro ha
    simp [applyUpdate, ha]
  · intro hu
    cases ha : bu.age with
    | none => simp [applyUpdate, ha, hu]
    | some a => simp [applyUpdate, ha]
  · rfl
  · rfl

/-- Witness for C7: a valid create of a 17-year-old yields adult = false,
and the body's own adult field is ignored. -/
theorem c7_witness :
    Scoped.authenticateToken cW.verify hdrW = Except.ok identW ∧
    (∀ r : User, ∀ s2 : Store,
        Scoped.createUser cW hdrW
          ⟨some "Bob", some "b@x.com", some 17, some "user", some true, none, none⟩
          store0 = (⟨201, Body.user r⟩, s2) →
        r.adult = isAdult r.age) := by
  have h1 : Scoped.authenticateToken cW.verify hdrW = Except.ok identW := by rfl
  exact ⟨h1, (c7_adult_invariant cW hdrW identW "1"
    ⟨some "Bob", some "b@x.com", some 17, some "user", some true, none, none⟩
    ubEmpty ⟨1, "x", "x", 1, "user", false, 1⟩ store0 h1).1⟩

/-- C9 (amended): when JS parseInt finds no leading integer in the id path
parameter, GET, PUT and DELETE on /users/:id answer 400 "Invalid ID" with
every store unchanged and independently of the store, so no store access
occurs; an id with an integer prefix (such as "3.5") is instead truncated
and processed normally. -/
theorem c9_invalid_id (c : Ctx) (hdr : Option String) (ident : Identity)
    (p : String) (b : UpdateBody)
    (hauth : Scoped.authenticateToken c.verify hdr = Except.ok ident)
    (hp : parseIntJS p = none) :
    (∀ s : Store, Scoped.getUserById c hdr p s =
      (⟨400, Body.msg "Invalid ID"⟩, s)) ∧
    (∀ s : Store, Scoped.updateUser c hdr p b s =
      (⟨400, Body.msg "Invalid ID"⟩, s)) ∧
    (∀ s : Store, Scoped.deleteUser c hdr p s =
      (⟨400, Body.msg "Invalid ID"⟩, s)) := by
  refine ⟨fun s => ?_, fun s => ?_, fun s => ?_⟩ <;>
    simp [Scoped.getUserById, Scoped.updateUser, Scoped.deleteUser, hauth, hp]

/-- Witness for C9: the id "abc" has no integer prefix and is rejected. -/
theorem c9_witness :
    Scoped.authenticateToken cW.verify hdrW = Except.ok identW ∧
    parseIntJS "abc" = none ∧
    Scoped.getUserById cW hdrW "abc" storeC9 =
      (⟨400, Body.msg "Invalid ID"⟩, storeC9) := by
  have h1 : Scoped.authenticateToken cW.verify hdrW = Except.ok identW := by rfl
  have h2 : parseIntJS "abc" = none := by decide
  exact ⟨h1, h2, (c9_invalid_id cW hdrW identW "abc" ubEmpty h1 h2).1 storeC9⟩

/-- C9 counterexample: "3.5" is not an integer, yet parseInt truncates it to
3 and the authenticated GET answers 200 with record 3 — not the 400 the
claim requires — and the store is read. -/
theorem c9_counterexample :
    parseIntJS "3.5" = some 3 ∧
    Scoped.getUserById cW hdrW "3.5" storeC9 =
      (⟨200, Body.user ⟨3, "Ann", "ann@x.com", 20, "user", true, 1⟩⟩, storeC9) ∧
    (Scoped.getUserById cW hdrW "3.5" storeC9).1.status ≠ 400 := by
  exact ⟨by decide, by rfl, by decide⟩

/-- C10: the create handler reads only name, email, age and role from the
body — two authenticated creates differing only in extra fields (adult, id,
ownerId, ...) behave identically — and the created record's owner is always
the caller's token id, never taken from the body. -/
theorem c10_create_ignores_extra_fields (c : Ctx) (hdr : Option String)
    (b1 b2 : CreateBody) (s : Store) (ident : Identity)
    (hauth : Scoped.authenticateToken c.verify hdr = Except.ok ident)
    (hn : b1.name = b2.name) (he : b1.email = b2.email)
    (ha : b1.age = b2.age) (hr : b1.role = b2.role) :
    Scoped.createUser c hdr b1 s = Scoped.createUser c hdr b2 s ∧
    (∀ r : User, ∀ s2 : Store,
        Scoped.createUser c hdr b1 s = (⟨201, Body.user r⟩, s2) →
        r.ownerId = ident.id) := by
  constructor
  · unfold Scoped.createUser createErrors
    rw [hn, he, ha, hr]
  · intro r s2 h
    cases herr : createErrors c.emailOk b1 with
    | cons m ms => simp [Scoped.createUser, hauth, herr] at h
    | nil =>
      simp [Scoped.createUser, hauth, herr] at h
      rw [← h.1]

/-- Witness for C10: two bodies differing in adult, id and ownerId create
the same record, owned by the caller. -/
theorem c10_witness :
    Scoped.authenticateToken cW.verify hdrW = Except.ok identW ∧
    Scoped.createUser cW hdrW
        ⟨some "Bob", some "b@x.com", some 17, some "user", none, none, none⟩
        store0 =
      Scoped.createUser cW hdrW
        ⟨some "Bob", some "b@x.com", some 17, some "user",
         some true, some 99, some 42⟩ store0 := by
  have h1 : Scoped.authenticateToken cW.verify hdrW = Except.ok identW := by rfl
  exact ⟨h1, (c10_create_ignores_extra_fields cW hdrW
    ⟨some "Bob", some "b@x.com", some 17, some "user", none, none, none⟩
    ⟨some "Bob", some "b@x.com", some 17, some "user", some true, some 99, some 42⟩
    store0 identW h1 rfl rfl rfl rfl).1⟩

/-- Witness for C6: registering a@x.com twice. -/
theorem c6_witness :
    storeC5.auths.find? (fun x => x.email == "a@x.com") =
      some ⟨1, "a@x.com", "pw#h"⟩ ∧
    register cW.hash (some "a@x.com") (some "pw2") storeC5 =
      (⟨400, Body.msg "Email already exists"⟩, storeC5) := by
  have h : storeC5.auths.find? (fun x => x.email == "a@x.com") =
      some ⟨1, "a@x.com", "pw#h"⟩ := by decide
  exact ⟨h, (c6_register_conflict cW.hash storeC5 "a@x.com" "pw2"
    ⟨1, "a@x.com", "pw#h"⟩ (by decide) (by decide) h).1⟩

theorem updateErrors_modules_eq (emailOk : String → Bool) (b : UpdateBody)
    (hn : b.name ≠ some "") (he : b.email ≠ some "") (hr : b.role ≠ some "") :
    Scoped.updateErrors emailOk b = Api.updateErrors emailOk b := by
  unfold Scoped.updateErrors Api.updateErrors
  rcases hbn : b.name with _ | n <;> rcases hbe : b.email with _ | e <;>
    rcases hbr : b.role with _ | r <;> simp_all

/-- C8 (amended): under a valid token and a store entirely owned by the
caller (so that owner filtering cannot bite), the two route modules agree on
status and body for GET /users, GET/PUT/DELETE /users/:id (PUT restricted
to bodies without empty-string fields, where the unscoped module's
checkFalsy validators coincide with the scoped ones), and produce the same
final store on DELETE /users and the same status and equivalent token body
on POST /login — but DELETE /users answers 200 with a deleted count in the
owner-scoped module and 204 with an empty body in the unscoped one. -/
theorem c8_module_equiv (c : Ctx) (hdr : Option String) (ident : Identity)
    (s : Store)
    (hauth : Scoped.authenticateToken c.verify hdr = Except.ok ident)
    (howner : ∀ u ∈ s.users, u.ownerId = ident.id) :
    (Scoped.getUsers c hdr s = Api.getUsers s) ∧
    (∀ p, Scoped.getUserById c hdr p s = Api.getUserById p s) ∧
    (∀ p, ∀ b : UpdateBody, b.name ≠ some "" → b.email ≠ some "" →
        b.role ≠ some "" →
        Scoped.updateUser c hdr p b s = Api.updateUser c hdr p b s) ∧
    (∀ p, Scoped.deleteUser c hdr p s = Api.deleteUser c hdr p s) ∧
    ((Scoped.deleteAllUsers c hdr s).2 = (Api.deleteAllUsers c hdr s).2 ∧
     (Scoped.deleteAllUsers c hdr s).1 =
       ⟨200, Body.deletedCount s.users.length⟩ ∧
     (Api.deleteAllUsers c hdr s).1 = ⟨204, Body.empty⟩) ∧
    (∀ e pw, (login c "300000" e pw s).1.status =
        (login c "1h" e pw s).1.status ∧
      Body.equivTok (login c "300000" e pw s).1.body
        (login c "1h" e pw s).1.body = true ∧
      (login c "300000" e pw s).2 = (login c "1h" e pw s).2) := by
  have hapi := apiAuthOk c.verify hdr ident hauth
  have hcong : ∀ i : Int,
      s.users.find? (fun u => u.id == i && u.ownerId == ident.id) =
        s.users.find? (fun u => u.id == i) := by
    intro i
    apply find?_congr
    intro x hx
    rw [howner x hx]
    simp
  have hfilter : s.users.filter (fun u => u.ownerId == ident.id) = s.users := by
    rw [List.filter_eq_self]
    intro a ha
    rw [howner a ha]
    simp
  have hfilter2 : s.users.filter (fun u => !(u.ownerId == ident.id)) = [] := by
    rw [List.filter_eq_nil_iff]
    intro a ha
    rw [howner a ha]
    simp
  refine ⟨?_, ?_, ?_, ?_, ⟨?_, ?_, ?_⟩, ?_⟩
  · simp [Scoped.getUsers, Api.getUsers, hauth, hfilter]
  · intro p
    cases hp : parseIntJS p with
    | none => simp [Scoped.getUserById, Api.getUserById, hauth, hp]
    | some i =>
      simp [Scoped.getUserById, Api.getUserById, hauth, hp, hcong i]
  · intro p b hn he hr
    have herr := updateErrors_modules_eq c.emailOk b hn he hr
    cases hp : parseIntJS p with
    | none => simp [Scoped.updateUser, Api.updateUser, hauth, hapi, hp]
    | some i =>
      cases hae : Api.updateErrors c.emailOk b with
      | cons m ms =>
        simp [Scoped.updateUser, Api.updateUser, hauth, hapi, hp, herr, hae]
      | nil =>
        cases hfi : s.users.find? (fun u => u.id == i) with
        | none =>
          simp [Scoped.updateUser, Api.updateUser, hauth, hapi, hp, herr,
            hae, hcong i, hfi]
        | some u0 =>
          simp [Scoped.updateUser, Api.updateUser, hauth, hapi, hp, herr,
            hae, hcong i, hfi]
  · intro p
    cases hp : parseIntJS p with
    | none => simp [Scoped.deleteUser, Api.deleteUser, hauth, hapi, hp]
    | some i =>
      cases hfi : s.users.find? (fun u => u.id == i) with
      | none =>
        simp [Scoped.deleteUser, Api.deleteUser, hauth, hapi, hp, hcong i, hfi]
      | some u0 =>
        simp [Scoped.deleteUser, Api.deleteUser, hauth, hapi, hp, hcong i, hfi]
  · simp [Scoped.deleteAllUsers, Api.deleteAllUsers, hauth, hapi, hfilter2]
  · simp [Scoped.deleteAllUsers, hauth, hfilter]
  · simp [Api.deleteAllUsers, hapi]
  · intro e pw
    cases e with
    | none => cases pw <;> simp [login, Body.equivTok]
    | some ev =>
      cases pw with
      | none => simp [login, Body.equivTok]
      | some pv =>
        by_cases hev : ev = "" ∨ pv = ""
        · simp [login, hev, Body.equivTok]
        · cases hfa : s.auths.find? (fun a => a.email == ev) with
          | none => simp [login, hev, hfa, Body.equivTok]
          | some au =>
            by_cases hc : c.cmp pv au.passwordHash
            · simp [login, hev, hfa, hc, Body.equivTok]
            · simp [login, hev, hfa, hc, Body.equivTok]

/-- Witness for C8: on a store fully owned by the witness caller, both
modules answer GET /users/1 identically. -/
theorem c8_witness :
    Scoped.authenticateToken cW.verify hdrW = Except.ok identW ∧
    (∀ u ∈ store8.users, u.ownerId = identW.id) ∧
    Scoped.getUserById cW hdrW "1" store8 = Api.getUserById "1" store8 := by
  have h1 : Scoped.authenticateToken cW.verify hdrW = Except.ok identW := by rfl
  have h2 : ∀ u ∈ store8.users, u.ownerId = identW.id := by decide
  exact ⟨h1, h2, (c8_module_equiv cW hdrW identW store8 h1 h2).2.1 "1"⟩

/-- C8 counterexample: an authenticated DELETE /users on the empty store —
an outcome independent of owner filtering — is answered 200 with
a deleted count by the owner-scoped module but 204 with an empty body by
the unscoped module, so the two modules do not produce the same status. -/
theorem c8_counterexample :
    (Scoped.deleteAllUsers cW hdrW store0).1.status = 200 ∧
    (Api.deleteAllUsers cW hdrW store0).1.status = 204 ∧
    (Scoped.deleteAllUsers cW hdrW store0).1 ≠
      (Api.deleteAllUsers cW hdrW store0).1 := by
  exact ⟨by rfl, by rfl, by decide⟩

end UsersApi
